import Mathlib

/-!
# Verification of the failure-detection and circuit-breaker routing engine

Shallow embedding of the worker service's circuit-breaker pipeline
(`services/worker/src/circuit-breaker/circuit-breaker.service.ts`,
`services/worker/src/worker/worker.service.ts`) and of the control plane's
breaker reset (`BreakersService.resetBreaker`).

The Redis failure store is modelled as a `Store` with two finite-support
maps: circuit records keyed by job type (the source stores them under the
string key `breaker:<jobType>`, which is in bijection with the job type) and
failure counters keyed by the pair (job type, error code) (the source
composes the string key `failure:<jobType>:<errorCode>`; for a fixed job
type, distinct error codes always yield distinct keys). A counter value of
`0` models an absent Redis key: `shouldOpenCircuit` reads absent keys as `0`
(`parseInt(count || "0", 10)`), so absence and zero are observationally
identical in the source. Counter TTL expiry (a one-hour auto-cleanup) and
timestamps are outside the claims and not modelled; `Date.now()` is passed
explicitly as the `now : Nat` millisecond clock.
-/

namespace DevopsCircuit

/-- Model of `CircuitState` from `circuit-breaker.service.ts`. -/
inductive CircuitState where
  | CLOSED
  | OPEN
deriving DecidableEq, Repr

/-- Model of `CircuitBreakerData` from `circuit-breaker.service.ts`: the JSON value
stored under `breaker:<jobType>`; `openedAt` is a millisecond timestamp,
present only when the circuit was opened. -/
structure CircuitBreakerData where
  state : CircuitState
  openedAt : Option Nat
deriving DecidableEq, Repr

/-- Model of `CircuitBreakerConfig` from `circuit-breaker.service.ts`:
`failureThreshold` (env `FAILURE_THRESHOLD`, default 5) and
`cooldownPeriod` in seconds (env `COOLDOWN_PERIOD`, default 60). -/
structure CircuitBreakerConfig where
  failureThreshold : Nat
  cooldownPeriod : Nat
deriving DecidableEq, Repr

/-- The default configuration (`FAILURE_THRESHOLD=5`, `COOLDOWN_PERIOD=60`). -/
def defaultConfig : CircuitBreakerConfig :=
  { failureThreshold := 5, cooldownPeriod := 60 }

/-- Default `MAX_RETRIES` read in `getRoutingDecision` (env default "3"). -/
def defaultMaxRetries : Nat := 3

/-- The shared Redis store, restricted to the keys the engine uses:
`breakers jt` models the value at key `breaker:<jt>` (`none` = key absent),
`failures jt ec` models the integer at key `failure:<jt>:<ec>`
(`0` = key absent). -/
@[ext]
structure Store where
  breakers : String → Option CircuitBreakerData
  failures : String → String → Nat

/-- A store with no keys at all. -/
def emptyStore : Store :=
  { breakers := fun _ => none, failures := fun _ _ => 0 }

/-- Model of `CircuitBreakerService.incrementFailure`: `INCR failure:<jt>:<ec>`,
returning the new count.  (The `EXPIRE` issued on a first increment sets the
one-hour TTL, which is not modelled.) -/
def incrementFailure (s : Store) (jobType errorCode : String) : Store × Nat :=
  let count := s.failures jobType errorCode + 1
  ({ s with
      failures := fun jt ec =>
        if jt = jobType ∧ ec = errorCode then count else s.failures jt ec },
   count)

/-- Model of `CircuitBreakerService.shouldOpenCircuit`:
`parseInt(GET failure:<jt>:<ec> || "0", 10) >= failureThreshold`. -/
def shouldOpenCircuit (cfg : CircuitBreakerConfig) (s : Store)
    (jobType errorCode : String) : Bool :=
  cfg.failureThreshold ≤ s.failures jobType errorCode

/-- Model of `CircuitBreakerService.openCircuit`: `SET breaker:<jt>` to
`{state: OPEN, openedAt: Date.now()}`. -/
def openCircuit (now : Nat) (s : Store) (jobType : String) : Store :=
  { s with
      breakers := fun jt =>
        if jt = jobType then some { state := .OPEN, openedAt := some now }
        else s.breakers jt }

/-- Model of `CircuitBreakerService.closeCircuit`: `SET breaker:<jt>` to
`{state: CLOSED}` (no `openedAt` field), then `DEL` every key matching
`failure:<jt>:*` — all failure counters of that job type, regardless of
error code. -/
def closeCircuit (s : Store) (jobType : String) : Store :=
  { breakers := fun jt =>
      if jt = jobType then some { state := .CLOSED, openedAt := none }
      else s.breakers jt,
    failures := fun jt ec =>
      if jt = jobType then 0 else s.failures jt ec }

/-- Model of `CircuitBreakerService.getCircuitState`: absent record reads as CLOSED;
otherwise the stored state is returned unchanged (the elapsed-cooldown check
in the source only logs and never mutates). -/
def getCircuitState (s : Store) (jobType : String) : CircuitState :=
  match s.breakers jobType with
  | none => .CLOSED
  | some breaker => breaker.state

/-- Model of `CircuitBreakerService.canProbe`: true iff a record exists, is OPEN with
a truthy `openedAt` (JavaScript `&&` treats the timestamp `0` as falsy), and
`(Date.now() - openedAt) / 1000 >= cooldownPeriod`.  The real-valued
division by 1000 compared against the integer `cooldownPeriod` is expressed
equivalently as `cooldownPeriod * 1000 ≤ now - openedAt` over `Int`. -/
def canProbe (cfg : CircuitBreakerConfig) (now : Nat) (s : Store)
    (jobType : String) : Bool :=
  match s.breakers jobType with
  | none => false
  | some breaker =>
    match breaker.openedAt with
    | none => false
    | some openedAt =>
      if breaker.state = CircuitState.OPEN ∧ openedAt ≠ 0 then
        decide ((cfg.cooldownPeriod : Int) * 1000 ≤ (now : Int) - (openedAt : Int))
      else false

/-- Model of the `metadata` field of a `JobMessage` (`worker.service.ts`). -/
structure JobMetadata where
  submittedAt : String
  attemptCount : Nat
deriving DecidableEq, Repr

/-- Model of `JobMessage` (`worker.service.ts`); the payload is opaque to the core. -/
structure JobMessage where
  jobType : String
  payload : String
  metadata : JobMetadata
deriving DecidableEq, Repr

/-- A job of the given type with attempt count 0 (shape produced by
`JobsService.publishJob`). -/
def mkJob (jobType : String) : JobMessage :=
  { jobType := jobType, payload := "", metadata := { submittedAt := "", attemptCount := 0 } }

/-- Model of `JobExecutionResult` (`worker.service.ts`): `errorCode` and `message`
are optional fields. -/
structure JobExecutionResult where
  success : Bool
  errorCode : Option String
  message : Option String
deriving DecidableEq, Repr

/-- Behaviour of one `executeJobLogic` invocation.  The executor is an
external/mocked collaborator (in the source it is randomized), so the
embedding takes its behaviour as an input: it returns success, returns a
typed failure (with the optional fields the source allows), or throws. -/
inductive ExecBehavior where
  | ok
  | fail (errorCode : Option String) (message : Option String)
  | exn (message : String)
deriving DecidableEq, Repr

/-- The synthetic outcome built by `processJob` when the circuit is OPEN and
not probe-eligible. -/
def circuitOpenResult : JobExecutionResult :=
  { success := false, errorCode := some "CIRCUIT_OPEN",
    message := some "Circuit breaker is open, job not processed" }

/-- The outcome built by `processJob`'s catch block from a thrown error. -/
def internalErrorResult (m : String) : JobExecutionResult :=
  { success := false, errorCode := some "INTERNAL_ERROR", message := some m }

/-- Model of `result.errorCode || "UNKNOWN_ERROR"` — JavaScript `||` falls through on
a missing or empty (falsy) error code. -/
def effectiveErrorCode (errorCode : Option String) : String :=
  match errorCode with
  | none => "UNKNOWN_ERROR"
  | some e => if e = "" then "UNKNOWN_ERROR" else e

/-- Observable outcome of one `WorkerService.processJob` call: the store
after the call, the returned `JobExecutionResult`, how many times the
executor (`executeJobLogic`) was invoked, and the
`(jobType, errorCode, failureCount)` alert calls made through
`EmailService.sendCircuitOpenAlert` (which never throws: it catches its own
send errors). -/
structure ProcessOutcome where
  store : Store
  result : JobExecutionResult
  executorCalls : Nat
  alerts : List (String × String × Nat)

/-- Model of `WorkerService.processJob` with a reliable store.  Mirrors the source:
read the circuit state; if OPEN and not probe-eligible, short-circuit with
the synthetic `CIRCUIT_OPEN` outcome; otherwise run the executor; on success
close the circuit when the pre-execution state was OPEN; on failure
increment the counter, and when the threshold is met and the pre-execution
state was CLOSED, open the circuit and fire the alert.  A thrown executor
error is caught and returned as an `INTERNAL_ERROR` outcome. -/
def processJob (cfg : CircuitBreakerConfig) (now : Nat) (s : Store)
    (job : JobMessage) (exec : ExecBehavior) : ProcessOutcome :=
  let circuitState := getCircuitState s job.jobType
  if circuitState = CircuitState.OPEN ∧ ¬ canProbe cfg now s job.jobType then
    { store := s, result := circuitOpenResult, executorCalls := 0, alerts := [] }
  else
    match exec with
    | .exn m =>
      { store := s, result := internalErrorResult m, executorCalls := 1, alerts := [] }
    | .ok =>
      if circuitState = CircuitState.OPEN then
        { store := closeCircuit s job.jobType,
          result := { success := true, errorCode := none, message := none },
          executorCalls := 1, alerts := [] }
      else
        { store := s,
          result := { success := true, errorCode := none, message := none },
          executorCalls := 1, alerts := [] }
    | .fail ec msg =>
      let errorCode := effectiveErrorCode ec
      let incr := incrementFailure s job.jobType errorCode
      let shouldOpen := shouldOpenCircuit cfg incr.1 job.jobType errorCode
      if shouldOpen = true ∧ circuitState = CircuitState.CLOSED then
        { store := openCircuit now incr.1 job.jobType,
          result := { success := false, errorCode := ec, message := msg },
          executorCalls := 1,
          alerts := [(job.jobType, errorCode, incr.2)] }
      else
        { store := incr.1,
          result := { success := false, errorCode := ec, message := msg },
          executorCalls := 1, alerts := [] }

/-- The three routes of `WorkerService.getRoutingDecision`. -/
inductive Route where
  | ack
  | retry
  | quarantine
deriving DecidableEq, Repr

/-- A routing decision: route plus human-readable reason. -/
structure RoutingDecision where
  route : Route
  reason : String
deriving DecidableEq, Repr

/-- Model of `WorkerService.getRoutingDecision` with a reliable store: success acks;
a `CIRCUIT_OPEN` synthetic failure quarantines; otherwise the circuit state
is re-read and an OPEN circuit or an exhausted retry budget quarantines
(OPEN picks its reason first), else the job is retried with the next
attempt number in the reason. -/
def getRoutingDecision (s : Store) (job : JobMessage)
    (result : JobExecutionResult) (maxRetries : Nat) : RoutingDecision :=
  if result.success = true then
    { route := .ack, reason := "Job completed successfully" }
  else if result.errorCode = some "CIRCUIT_OPEN" then
    { route := .quarantine, reason := "Circuit breaker is open" }
  else
    let circuitState := getCircuitState s job.jobType
    if circuitState = CircuitState.OPEN ∨ maxRetries ≤ job.metadata.attemptCount then
      { route := .quarantine,
        reason :=
          if circuitState = CircuitState.OPEN then
            "Circuit breaker opened due to repeated failures"
          else "Max retries exceeded" }
    else
      { route := .retry,
        reason := "Retry attempt " ++ toString (job.metadata.attemptCount + 1)
          ++ "/" ++ toString maxRetries }

/-- Model of `BreakersService.resetBreaker` (control plane): `EXISTS breaker:<jt>`;
when absent it throws `NotFoundException` (modelled as `Except.error ()`)
and touches nothing; when present it writes `{state: CLOSED}` and deletes
every `failure:<jt>:*` counter — the same store writes `closeCircuit`
performs. -/
def resetBreaker (s : Store) (jobType : String) : Except Unit Store :=
  match s.breakers jobType with
  | none => .error ()
  | some _ =>
    .ok { breakers := fun jt =>
            if jt = jobType then some { state := .CLOSED, openedAt := none }
            else s.breakers jt,
          failures := fun jt ec =>
            if jt = jobType then 0 else s.failures jt ec }

/-- Sequential processing of a list of failed executions of one job type:
each element is the error code reported by the executor for that job.
Returns the final store and the concatenated alert calls. -/
def runFailures (cfg : CircuitBreakerConfig) (now : Nat) (jt : String) :
    List String → Store → Store × List (String × String × Nat)
  | [], s => (s, [])
  | ec :: rest, s =>
    let o := processJob cfg now s (mkJob jt) (.fail (some ec) none)
    let r := runFailures cfg now jt rest o.store
    (r.1, o.alerts ++ r.2)

theorem getCircuitState_eq_of_breakers (s₁ s₂ : Store) (jt : String)
    (h : s₁.breakers = s₂.breakers) :
    getCircuitState s₁ jt = getCircuitState s₂ jt := by
  unfold getCircuitState
  rw [h]

theorem getCircuitState_openCircuit (now : Nat) (s : Store) (jt : String) :
    getCircuitState (openCircuit now s jt) jt = CircuitState.OPEN := by
  simp [getCircuitState, openCircuit]

/-- Characterization of one `processJob` call on a failed execution while the
circuit is CLOSED: the counter for the (non-empty) error code is incremented;
when the new count meets the threshold the circuit opens and the alert fires
with the new count, otherwise only the counter changes. -/
theorem processJob_closed_fail (cfg : CircuitBreakerConfig) (now : Nat)
    (s : Store) (job : JobMessage) (ec : String) (msg : Option String)
    (hec : ec ≠ "") (h : getCircuitState s job.jobType = CircuitState.CLOSED) :
    processJob cfg now s job (.fail (some ec) msg) =
      if cfg.failureThreshold ≤ s.failures job.jobType ec + 1 then
        { store := openCircuit now (incrementFailure s job.jobType ec).1 job.jobType,
          result := { success := false, errorCode := some ec, message := msg },
          executorCalls := 1,
          alerts := [(job.jobType, ec, s.failures job.jobType ec + 1)] }
      else
        { store := (incrementFailure s job.jobType ec).1,
          result := { success := false, errorCode := some ec, message := msg },
          executorCalls := 1, alerts := [] } := by
  simp only [processJob, h, effectiveErrorCode, if_neg hec,
    shouldOpenCircuit, incrementFailure]
  simp

/-- Processing a list of failures is the two halves in sequence. -/
theorem runFailures_append (cfg : CircuitBreakerConfig) (now : Nat)
    (jt : String) (l₁ l₂ : List String) (s : Store) :
    runFailures cfg now jt (l₁ ++ l₂) s =
      ((runFailures cfg now jt l₂ (runFailures cfg now jt l₁ s).1).1,
       (runFailures cfg now jt l₁ s).2
         ++ (runFailures cfg now jt l₂ (runFailures cfg now jt l₁ s).1).2) := by
  induction l₁ generalizing s with
  | nil => simp [runFailures]
  | cons ec rest ih => simp [runFailures, ih]

/-- Core invariant: while every processed error code stays strictly below
the threshold (initial count plus its number of occurrences), a run of
failures never touches the circuit records, fires no alert, and adds exactly
its occurrence count to each counter of the job type. -/
theorem runFailures_no_open (cfg : CircuitBreakerConfig) (now : Nat)
    (jt : String) :
    ∀ (codes : List String) (s : Store),
      (∀ c ∈ codes, c ≠ "") →
      getCircuitState s jt = CircuitState.CLOSED →
      (∀ c ∈ codes, s.failures jt c + codes.count c < cfg.failureThreshold) →
      (runFailures cfg now jt codes s).1.breakers = s.breakers ∧
      (runFailures cfg now jt codes s).2 = [] ∧
      ∀ jt' c, (runFailures cfg now jt codes s).1.failures jt' c
        = s.failures jt' c + (if jt' = jt then codes.count c else 0) := by
  intro codes
  induction codes with
  | nil =>
    intro s _ _ _
    refine ⟨rfl, rfl, ?_⟩
    intro jt' c
    simp [runFailures]
  | cons ec rest ih =>
    intro s hne hclosed hbound
    have hecne : ec ≠ "" := hne ec (List.mem_cons_self ec rest)
    have hcnt : s.failures jt ec + (ec :: rest).count ec < cfg.failureThreshold :=
      hbound ec (List.mem_cons_self ec rest)
    have hlt : s.failures jt ec + 1 ≤ s.failures jt ec + (ec :: rest).count ec := by
      have : 1 ≤ (ec :: rest).count ec := by
        rw [List.count_cons_self]
        omega
      omega
    have hbelow : ¬ cfg.failureThreshold ≤ s.failures jt ec + 1 := by omega
    have hstep := processJob_closed_fail cfg now s (mkJob jt) ec none hecne hclosed
    simp only [mkJob] at hstep
    rw [if_neg hbelow] at hstep
    have hrun : runFailures cfg now jt (ec :: rest) s =
        ((runFailures cfg now jt rest (incrementFailure s jt ec).1).1,
         (runFailures cfg now jt rest (incrementFailure s jt ec).1).2) := by
      simp [runFailures, mkJob, hstep]
    have hclosed₁ : getCircuitState (incrementFailure s jt ec).1 jt = CircuitState.CLOSED := by
      rw [getCircuitState_eq_of_breakers (incrementFailure s jt ec).1 s jt rfl]
      exact hclosed
    have hbound₁ : ∀ c ∈ rest, (incrementFailure s jt ec).1.failures jt c + rest.count c
        < cfg.failureThreshold := by
      intro c hc
      by_cases hcec : c = ec
      · subst hcec
        have : (incrementFailure s jt c).1.failures jt c = s.failures jt c + 1 := by
          simp [incrementFailure]
        rw [this]
        rw [List.count_cons_self] at hcnt
        omega
      · have : (incrementFailure s jt ec).1.failures jt c = s.failures jt c := by
          simp [incrementFailure, hcec]
        rw [this]
        have := hbound c (List.mem_cons_of_mem ec hc)
        rw [List.count_cons_of_ne hcec] at this
        exact this
    have hne₁ : ∀ c ∈ rest, c ≠ "" := fun c hc => hne c (List.mem_cons_of_mem ec hc)
    obtain ⟨ihb, iha, ihf⟩ := ih (incrementFailure s jt ec).1 hne₁ hclosed₁ hbound₁
    rw [hrun]
    refine ⟨ihb, iha, ?_⟩
    intro jt' c
    rw [ihf jt' c]
    by_cases hjt : jt' = jt
    · subst hjt
      by_cases hcec : c = ec
      · subst hcec
        have : (incrementFailure s jt' c).1.failures jt' c = s.failures jt' c + 1 := by
          simp [incrementFailure]
        rw [this, List.count_cons_self]
        simp
        omega
      · have : (incrementFailure s jt' ec).1.failures jt' c = s.failures jt' c := by
          simp [incrementFailure, hcec]
        rw [this, List.count_cons_of_ne hcec]
    · have : (incrementFailure s jt ec).1.failures jt' c = s.failures jt' c := by
        simp [incrementFailure, hjt]
      rw [this]
      simp [hjt]

theorem runFailures_singleton (cfg : CircuitBreakerConfig) (now : Nat)
    (jt ec : String) (s : Store) :
    runFailures cfg now jt [ec] s =
      ((processJob cfg now s (mkJob jt) (.fail (some ec) none)).store,
       (processJob cfg now s (mkJob jt) (.fail (some ec) none)).alerts) := by
  simp [runFailures]

/-- One failed execution that lifts its counter to the threshold while the
circuit is CLOSED opens the circuit and fires the alert with the new
count. -/
theorem processJob_closed_fail_opens (cfg : CircuitBreakerConfig) (now : Nat)
    (s : Store) (job : JobMessage) (ec : String) (msg : Option String)
    (hec : ec ≠ "") (hclosed : getCircuitState s job.jobType = CircuitState.CLOSED)
    (hth : cfg.failureThreshold ≤ s.failures job.jobType ec + 1) :
    getCircuitState (processJob cfg now s job (.fail (some ec) msg)).store job.jobType
      = CircuitState.OPEN ∧
    (processJob cfg now s job (.fail (some ec) msg)).alerts
      = [(job.jobType, ec, s.failures job.jobType ec + 1)] := by
  rw [processJob_closed_fail cfg now s job ec msg hec hclosed, if_pos hth]
  exact ⟨getCircuitState_openCircuit now (incrementFailure s job.jobType ec).1 job.jobType, rfl⟩

/-- Lemma `processJob_closed_fail_opens` specialized to a bare job of type `jt`,
stated with `jt` in place of the definitionally equal `(mkJob jt).jobType`. -/
theorem processJob_mkJob_fail_opens (cfg : CircuitBreakerConfig) (now : Nat)
    (s : Store) (jt ec : String) (hec : ec ≠ "")
    (hclosed : getCircuitState s jt = CircuitState.CLOSED)
    (hth : cfg.failureThreshold ≤ s.failures jt ec + 1) :
    getCircuitState (processJob cfg now s (mkJob jt) (.fail (some ec) none)).store jt
      = CircuitState.OPEN ∧
    (processJob cfg now s (mkJob jt) (.fail (some ec) none)).alerts
      = [(jt, ec, s.failures jt ec + 1)] :=
  processJob_closed_fail_opens cfg now s (mkJob jt) ec none hec hclosed hth

/-- C1.  Starting from a CLOSED circuit with a fresh counter, after
`failureThreshold` consecutive failed executions sharing one error code with
no intervening success, the circuit is OPEN and the alert callback has fired
exactly once, with arguments `(jobType, errorCode, failureThreshold)`; after
the first `failureThreshold - 1` of them the circuit is still CLOSED and no
alert has fired, so it is the processing of the last failure that performs
the CLOSED-to-OPEN transition.  (The error code is assumed non-empty: a
JavaScript-falsy empty code would be recorded as `UNKNOWN_ERROR`.) -/
theorem circuit_opens_after_threshold_failures
    (cfg : CircuitBreakerConfig) (now : Nat) (s₀ : Store) (jt ec : String)
    (ht : 1 ≤ cfg.failureThreshold) (hec : ec ≠ "")
    (hclosed : getCircuitState s₀ jt = CircuitState.CLOSED)
    (hcnt : s₀.failures jt ec = 0) :
    getCircuitState
      (runFailures cfg now jt (List.replicate (cfg.failureThreshold - 1) ec) s₀).1 jt
      = CircuitState.CLOSED ∧
    (runFailures cfg now jt (List.replicate (cfg.failureThreshold - 1) ec) s₀).2 = [] ∧
    getCircuitState
      (runFailures cfg now jt (List.replicate cfg.failureThreshold ec) s₀).1 jt
      = CircuitState.OPEN ∧
    (runFailures cfg now jt (List.replicate cfg.failureThreshold ec) s₀).2
      = [(jt, ec, cfg.failureThreshold)] := by
  have hne : ∀ c ∈ List.replicate (cfg.failureThreshold - 1) ec, c ≠ "" := by
    intro c hc
    rw [List.eq_of_mem_replicate hc]
    exact hec
  have hbound : ∀ c ∈ List.replicate (cfg.failureThreshold - 1) ec,
      s₀.failures jt c + (List.replicate (cfg.failureThreshold - 1) ec).count c
        < cfg.failureThreshold := by
    intro c hc
    rw [List.eq_of_mem_replicate hc, hcnt, List.count_replicate_self]
    omega
  obtain ⟨hbk, hal, hfl⟩ :=
    runFailures_no_open cfg now jt (List.replicate (cfg.failureThreshold - 1) ec) s₀
      hne hclosed hbound
  have hmidClosed : getCircuitState
      (runFailures cfg now jt (List.replicate (cfg.failureThreshold - 1) ec) s₀).1 jt
      = CircuitState.CLOSED := by
    rw [getCircuitState_eq_of_breakers _ s₀ jt hbk]
    exact hclosed
  refine ⟨hmidClosed, hal, ?_⟩
  have hmidCnt : (runFailures cfg now jt (List.replicate (cfg.failureThreshold - 1) ec) s₀).1.failures jt ec
      = cfg.failureThreshold - 1 := by
    rw [hfl jt ec, hcnt, if_pos rfl, List.count_replicate_self]
    omega
  have hsplit : List.replicate cfg.failureThreshold ec
      = List.replicate (cfg.failureThreshold - 1) ec ++ [ec] := by
    have h1 : cfg.failureThreshold = (cfg.failureThreshold - 1) + 1 := by omega
    nth_rewrite 1 [h1]
    rw [List.replicate_succ']
  rw [hsplit, runFailures_append, runFailures_singleton]
  obtain ⟨ho1, ho2⟩ := processJob_mkJob_fail_opens cfg now
    (runFailures cfg now jt (List.replicate (cfg.failureThreshold - 1) ec) s₀).1
    jt ec hec hmidClosed (by rw [hmidCnt]; omega)
  refine ⟨ho1, ?_⟩
  dsimp only
  rw [hal, ho2, hmidCnt]
  have h2 : cfg.failureThreshold - 1 + 1 = cfg.failureThreshold := by omega
  rw [h2]
  rfl

/-- C1 witness: the default threshold (5), job type `email`, error code
`API_TIMEOUT`, starting from the empty store. -/
theorem circuit_opens_after_threshold_failures_witness :
    1 ≤ defaultConfig.failureThreshold ∧ "API_TIMEOUT" ≠ "" ∧
    getCircuitState emptyStore "email" = CircuitState.CLOSED ∧
    emptyStore.failures "email" "API_TIMEOUT" = 0 ∧
    (getCircuitState
      (runFailures defaultConfig 0 "email"
        (List.replicate (defaultConfig.failureThreshold - 1) "API_TIMEOUT") emptyStore).1 "email"
      = CircuitState.CLOSED ∧
    (runFailures defaultConfig 0 "email"
      (List.replicate (defaultConfig.failureThreshold - 1) "API_TIMEOUT") emptyStore).2 = [] ∧
    getCircuitState
      (runFailures defaultConfig 0 "email"
        (List.replicate defaultConfig.failureThreshold "API_TIMEOUT") emptyStore).1 "email"
      = CircuitState.OPEN ∧
    (runFailures defaultConfig 0 "email"
      (List.replicate defaultConfig.failureThreshold "API_TIMEOUT") emptyStore).2
      = [("email", "API_TIMEOUT", defaultConfig.failureThreshold)]) :=
  ⟨by decide, by decide, by decide, by decide,
   circuit_opens_after_threshold_failures defaultConfig 0 emptyStore "email" "API_TIMEOUT"
     (by decide) (by decide) (by decide) (by decide)⟩

/-- C5.  With counters keyed independently per (job type, error code), any
interleaving of `threshold - 1` failures of code `A` and `threshold - 1`
failures of code `B` for one job type leaves the circuit CLOSED with no
alert; one further failure of code `A` then lifts that single counter to the
threshold and opens the circuit. -/
theorem mixed_error_codes_do_not_open
    (cfg : CircuitBreakerConfig) (now : Nat) (s₀ : Store)
    (jt A B : String) (codes : List String)
    (ht : 1 ≤ cfg.failureThreshold) (hA : A ≠ "") (hB : B ≠ "")
    (hclosed : getCircuitState s₀ jt = CircuitState.CLOSED)
    (hcA : s₀.failures jt A = 0) (hcB : s₀.failures jt B = 0)
    (hmem : ∀ c ∈ codes, c = A ∨ c = B)
    (hcountA : codes.count A = cfg.failureThreshold - 1)
    (hcountB : codes.count B = cfg.failureThreshold - 1) :
    getCircuitState (runFailures cfg now jt codes s₀).1 jt = CircuitState.CLOSED ∧
    (runFailures cfg now jt codes s₀).2 = [] ∧
    getCircuitState
      (processJob cfg now (runFailures cfg now jt codes s₀).1 (mkJob jt)
        (.fail (some A) none)).store jt = CircuitState.OPEN ∧
    (processJob cfg now (runFailures cfg now jt codes s₀).1 (mkJob jt)
      (.fail (some A) none)).alerts = [(jt, A, cfg.failureThreshold)] := by
  have hne : ∀ c ∈ codes, c ≠ "" := by
    intro c hc
    rcases hmem c hc with h | h <;> rw [h]
    · exact hA
    · exact hB
  have hbound : ∀ c ∈ codes, s₀.failures jt c + codes.count c < cfg.failureThreshold := by
    intro c hc
    rcases hmem c hc with h | h <;> subst h
    · rw [hcA, hcountA]; omega
    · rw [hcB, hcountB]; omega
  obtain ⟨hbk, hal, hfl⟩ := runFailures_no_open cfg now jt codes s₀ hne hclosed hbound
  have hmidClosed : getCircuitState (runFailures cfg now jt codes s₀).1 jt
      = CircuitState.CLOSED := by
    rw [getCircuitState_eq_of_breakers _ s₀ jt hbk]
    exact hclosed
  refine ⟨hmidClosed, hal, ?_⟩
  have hmidCnt : (runFailures cfg now jt codes s₀).1.failures jt A
      = cfg.failureThreshold - 1 := by
    rw [hfl jt A, hcA, if_pos rfl, hcountA]
    omega
  obtain ⟨ho1, ho2⟩ := processJob_mkJob_fail_opens cfg now
    (runFailures cfg now jt codes s₀).1 jt A hA hmidClosed (by rw [hmidCnt]; omega)
  refine ⟨ho1, ?_⟩
  rw [ho2, hmidCnt]
  have h2 : cfg.failureThreshold - 1 + 1 = cfg.failureThreshold := by omega
  rw [h2]

/-- C5 witness: the spec's concrete scenario — threshold 5, four
`API_TIMEOUT` failures plus four `VALIDATION_ERROR` failures leave the
circuit CLOSED; a ninth `API_TIMEOUT` failure opens it. -/
theorem mixed_error_codes_do_not_open_witness :
    1 ≤ defaultConfig.failureThreshold ∧ "API_TIMEOUT" ≠ "" ∧ "VALIDATION_ERROR" ≠ "" ∧
    getCircuitState emptyStore "email" = CircuitState.CLOSED ∧
    emptyStore.failures "email" "API_TIMEOUT" = 0 ∧
    emptyStore.failures "email" "VALIDATION_ERROR" = 0 ∧
    (getCircuitState
      (runFailures defaultConfig 0 "email"
        ["API_TIMEOUT", "API_TIMEOUT", "API_TIMEOUT", "API_TIMEOUT",
         "VALIDATION_ERROR", "VALIDATION_ERROR", "VALIDATION_ERROR", "VALIDATION_ERROR"]
        emptyStore).1 "email" = CircuitState.CLOSED ∧
    (runFailures defaultConfig 0 "email"
      ["API_TIMEOUT", "API_TIMEOUT", "API_TIMEOUT", "API_TIMEOUT",
       "VALIDATION_ERROR", "VALIDATION_ERROR", "VALIDATION_ERROR", "VALIDATION_ERROR"]
      emptyStore).2 = [] ∧
    getCircuitState
      (processJob defaultConfig 0
        (runFailures defaultConfig 0 "email"
          ["API_TIMEOUT", "API_TIMEOUT", "API_TIMEOUT", "API_TIMEOUT",
           "VALIDATION_ERROR", "VALIDATION_ERROR", "VALIDATION_ERROR", "VALIDATION_ERROR"]
          emptyStore).1 (mkJob "email") (.fail (some "API_TIMEOUT") none)).store "email"
      = CircuitState.OPEN ∧
    (processJob defaultConfig 0
      (runFailures defaultConfig 0 "email"
        ["API_TIMEOUT", "API_TIMEOUT", "API_TIMEOUT", "API_TIMEOUT",
         "VALIDATION_ERROR", "VALIDATION_ERROR", "VALIDATION_ERROR", "VALIDATION_ERROR"]
        emptyStore).1 (mkJob "email") (.fail (some "API_TIMEOUT") none)).alerts
      = [("email", "API_TIMEOUT", defaultConfig.failureThreshold)]) :=
  ⟨by decide, by decide, by decide, by decide, by decide, by decide,
   mixed_error_codes_do_not_open defaultConfig 0 emptyStore "email"
     "API_TIMEOUT" "VALIDATION_ERROR"
     ["API_TIMEOUT", "API_TIMEOUT", "API_TIMEOUT", "API_TIMEOUT",
      "VALIDATION_ERROR", "VALIDATION_ERROR", "VALIDATION_ERROR", "VALIDATION_ERROR"]
     (by decide) (by decide) (by decide) (by decide) (by decide) (by decide)
     (by decide) (by decide) (by decide)⟩

/-- C2.  While the circuit for a job's type is OPEN and not probe-eligible,
`processJob` never invokes the executor (call count 0), leaves the store
untouched, and returns the synthetic `{success: false, errorCode:
"CIRCUIT_OPEN"}` outcome, which `getRoutingDecision` always (for any store,
job, and retry budget) routes to quarantine with reason
"Circuit breaker is open". -/
theorem open_circuit_short_circuits_executor
    (cfg : CircuitBreakerConfig) (now : Nat) (s : Store) (job : JobMessage)
    (exec : ExecBehavior)
    (hopen : getCircuitState s job.jobType = CircuitState.OPEN)
    (hnoprobe : canProbe cfg now s job.jobType = false) :
    (processJob cfg now s job exec).executorCalls = 0 ∧
    (processJob cfg now s job exec).store = s ∧
    (processJob cfg now s job exec).result = circuitOpenResult ∧
    ∀ (s' : Store) (job' : JobMessage) (maxRetries : Nat),
      getRoutingDecision s' job' (processJob cfg now s job exec).result maxRetries
        = { route := Route.quarantine, reason := "Circuit breaker is open" } := by
  have hgate : processJob cfg now s job exec =
      { store := s, result := circuitOpenResult, executorCalls := 0, alerts := [] } := by
    unfold processJob
    rw [if_pos]
    exact ⟨hopen, by simp [hnoprobe]⟩
  rw [hgate]
  refine ⟨rfl, rfl, rfl, ?_⟩
  intro s' job' maxRetries
  simp [getRoutingDecision, circuitOpenResult]

/-- C2 witness: default configuration, circuit opened at time 1000 observed
at time 1000 (cooldown not elapsed). -/
theorem open_circuit_short_circuits_executor_witness :
    (processJob defaultConfig 1000 (openCircuit 1000 emptyStore "email")
       (mkJob "email") .ok).executorCalls = 0 ∧
    (processJob defaultConfig 1000 (openCircuit 1000 emptyStore "email")
       (mkJob "email") .ok).result = circuitOpenResult ∧
    getRoutingDecision emptyStore (mkJob "email")
      (processJob defaultConfig 1000 (openCircuit 1000 emptyStore "email")
        (mkJob "email") .ok).result 3
      = { route := Route.quarantine, reason := "Circuit breaker is open" } :=
  ⟨(open_circuit_short_circuits_executor defaultConfig 1000
      (openCircuit 1000 emptyStore "email") (mkJob "email") .ok
      (by decide) (by decide)).1,
   (open_circuit_short_circuits_executor defaultConfig 1000
      (openCircuit 1000 emptyStore "email") (mkJob "email") .ok
      (by decide) (by decide)).2.2.1,
   (open_circuit_short_circuits_executor defaultConfig 1000
      (openCircuit 1000 emptyStore "email") (mkJob "email") .ok
      (by decide) (by decide)).2.2.2 emptyStore (mkJob "email") 3⟩

/-- C3.  `canProbe` is true exactly when a stored OPEN record with a
(positive) `openedAt` timestamp has aged past the cooldown
(`cooldownPeriod * 1000 ≤ now - openedAt` in milliseconds), and is false
whenever the state reads CLOSED (including an absent record); when it is
true, the next job of that type is allowed through as a probe (executor
invoked exactly once): a successful probe leaves the circuit CLOSED with
every failure counter of the job type gone, a failed probe leaves the
record OPEN with `openedAt` unchanged.  (`openedAt = 0` is excluded by the
source's JavaScript truthiness test; `openCircuit` stores `Date.now()`,
which is positive.) -/
theorem canProbe_spec_and_probe_transitions :
    (∀ (cfg : CircuitBreakerConfig) (now : Nat) (s : Store) (jt : String),
      canProbe cfg now s jt = true ↔
        ∃ t, s.breakers jt = some { state := CircuitState.OPEN, openedAt := some t } ∧
          0 < t ∧ (cfg.cooldownPeriod : Int) * 1000 ≤ (now : Int) - (t : Int)) ∧
    (∀ (cfg : CircuitBreakerConfig) (now : Nat) (s : Store) (jt : String),
      getCircuitState s jt = CircuitState.CLOSED → canProbe cfg now s jt = false) ∧
    (∀ (cfg : CircuitBreakerConfig) (now : Nat) (s : Store) (job : JobMessage) (t : Nat),
      s.breakers job.jobType = some { state := CircuitState.OPEN, openedAt := some t } →
      canProbe cfg now s job.jobType = true →
      ((processJob cfg now s job .ok).executorCalls = 1 ∧
       getCircuitState (processJob cfg now s job .ok).store job.jobType
         = CircuitState.CLOSED ∧
       (∀ ec, (processJob cfg now s job .ok).store.failures job.jobType ec = 0) ∧
       ∀ (ec : Option String) (msg : Option String),
         (processJob cfg now s job (.fail ec msg)).executorCalls = 1 ∧
         (processJob cfg now s job (.fail ec msg)).store.breakers job.jobType
           = some { state := CircuitState.OPEN, openedAt := some t })) := by
  refine ⟨?_, ?_, ?_⟩
  · intro cfg now s jt
    unfold canProbe
    cases hb : s.breakers jt with
    | none => simp
    | some b =>
      obtain ⟨bs, bo⟩ := b
      cases bo with
      | none => simp
      | some t =>
        cases bs with
        | CLOSED => simp
        | OPEN =>
          by_cases ht : t = 0
          · subst ht
            simp
          · dsimp only
            rw [if_pos ⟨rfl, ht⟩, decide_eq_true_eq]
            constructor
            · intro h
              exact ⟨t, rfl, Nat.pos_of_ne_zero ht, h⟩
            · rintro ⟨t', heq, hpos, h⟩
              injection heq with heq2
              injection heq2 with hs ho2
              injection ho2 with ht2
              subst ht2
              exact h
  · intro cfg now s jt h
    unfold getCircuitState at h
    unfold canProbe
    cases hb : s.breakers jt with
    | none => rfl
    | some b =>
      simp only [hb] at h
      cases ho : b.openedAt with
      | none => simp [ho]
      | some t => simp [ho, h]
  · intro cfg now s job t hrec hprobe
    have hstate : getCircuitState s job.jobType = CircuitState.OPEN := by
      simp [getCircuitState, hrec]
    have hok : processJob cfg now s job .ok =
        { store := closeCircuit s job.jobType,
          result := { success := true, errorCode := none, message := none },
          executorCalls := 1, alerts := [] } := by
      simp [processJob, hstate, hprobe]
    refine ⟨?_, ?_, ?_, ?_⟩
    · rw [hok]
    · rw [hok]
      simp [getCircuitState, closeCircuit]
    · intro ec
      rw [hok]
      simp [closeCircuit]
    · intro ec msg
      have hfail : processJob cfg now s job (.fail ec msg) =
          { store := (incrementFailure s job.jobType (effectiveErrorCode ec)).1,
            result := { success := false, errorCode := ec, message := msg },
            executorCalls := 1, alerts := [] } := by
        simp [processJob, hstate, hprobe]
      rw [hfail]
      exact ⟨rfl, hrec⟩

/-- C3 witness: circuit opened at time 7, probed at time 60007 (cooldown of
60 s elapsed); `canProbe` is true there (via the iff), false on the empty
store (via the CLOSED case), and both probe outcomes instantiated. -/
theorem canProbe_spec_and_probe_transitions_witness :
    canProbe defaultConfig 60007 (openCircuit 7 emptyStore "email") "email" = true ∧
    canProbe defaultConfig 60007 emptyStore "email" = false ∧
    (processJob defaultConfig 60007 (openCircuit 7 emptyStore "email")
       (mkJob "email") .ok).executorCalls = 1 ∧
    getCircuitState (processJob defaultConfig 60007 (openCircuit 7 emptyStore "email")
       (mkJob "email") .ok).store "email" = CircuitState.CLOSED ∧
    (processJob defaultConfig 60007 (openCircuit 7 emptyStore "email")
       (mkJob "email") .ok).store.failures "email" "API_TIMEOUT" = 0 ∧
    (processJob defaultConfig 60007 (openCircuit 7 emptyStore "email")
       (mkJob "email") (.fail (some "API_TIMEOUT") none)).executorCalls = 1 ∧
    (processJob defaultConfig 60007 (openCircuit 7 emptyStore "email")
       (mkJob "email") (.fail (some "API_TIMEOUT") none)).store.breakers "email"
      = some { state := CircuitState.OPEN, openedAt := some 7 } := by
  refine ⟨?_, ?_, ?_, ?_, ?_, ?_, ?_⟩
  · exact (canProbe_spec_and_probe_transitions.1 defaultConfig 60007
      (openCircuit 7 emptyStore "email") "email").mpr
      ⟨7, by decide, by decide, by decide⟩
  · exact canProbe_spec_and_probe_transitions.2.1 defaultConfig 60007
      emptyStore "email" (by decide)
  · exact (canProbe_spec_and_probe_transitions.2.2 defaultConfig 60007
      (openCircuit 7 emptyStore "email") (mkJob "email") 7 (by decide) (by decide)).1
  · exact (canProbe_spec_and_probe_transitions.2.2 defaultConfig 60007
      (openCircuit 7 emptyStore "email") (mkJob "email") 7 (by decide) (by decide)).2.1
  · exact (canProbe_spec_and_probe_transitions.2.2 defaultConfig 60007
      (openCircuit 7 emptyStore "email") (mkJob "email") 7 (by decide) (by decide)).2.2.1
      "API_TIMEOUT"
  · exact ((canProbe_spec_and_probe_transitions.2.2 defaultConfig 60007
      (openCircuit 7 emptyStore "email") (mkJob "email") 7 (by decide) (by decide)).2.2.2
      (some "API_TIMEOUT") none).1
  · exact ((canProbe_spec_and_probe_transitions.2.2 defaultConfig 60007
      (openCircuit 7 emptyStore "email") (mkJob "email") 7 (by decide) (by decide)).2.2.2
      (some "API_TIMEOUT") none).2

/-- C8.  `closeCircuit` always leaves the job type's circuit reading CLOSED
and deletes every failure counter of that job type regardless of error code,
while leaving other job types' counters and records untouched; and it is
idempotent (a second close of the same job type changes nothing), so closing
an already-CLOSED job type is an observable no-op (the operation is total:
no error path exists in the source). -/
theorem closeCircuit_clears_and_is_idempotent :
    (∀ (s : Store) (jt : String),
      getCircuitState (closeCircuit s jt) jt = CircuitState.CLOSED) ∧
    (∀ (s : Store) (jt ec : String), (closeCircuit s jt).failures jt ec = 0) ∧
    (∀ (s : Store) (jt jt' ec : String), jt' ≠ jt →
      (closeCircuit s jt).failures jt' ec = s.failures jt' ec ∧
      (closeCircuit s jt).breakers jt' = s.breakers jt') ∧
    (∀ (s : Store) (jt : String),
      closeCircuit (closeCircuit s jt) jt = closeCircuit s jt) := by
  refine ⟨?_, ?_, ?_, ?_⟩
  · intro s jt
    simp [getCircuitState, closeCircuit]
  · intro s jt ec
    simp [closeCircuit]
  · intro s jt jt' ec h
    constructor <;> simp [closeCircuit, h]
  · intro s jt
    apply Store.ext
    · funext k
      by_cases hk : k = jt <;> simp [closeCircuit, hk]
    · funext k e
      by_cases hk : k = jt <;> simp [closeCircuit, hk]

/-- C8 witness: closing `email` leaves the unrelated `sms` counter in
place. -/
theorem closeCircuit_clears_and_is_idempotent_witness :
    "sms" ≠ "email" ∧
    ((closeCircuit emptyStore "email").failures "sms" "API_TIMEOUT"
        = emptyStore.failures "sms" "API_TIMEOUT" ∧
     (closeCircuit emptyStore "email").breakers "sms" = emptyStore.breakers "sms") :=
  ⟨by decide,
   closeCircuit_clears_and_is_idempotent.2.2.1 emptyStore "email" "sms" "API_TIMEOUT"
     (by decide)⟩

/-- C9.  One `processJob` step never performs an OPEN-to-OPEN transition:
starting from any stored OPEN record, the record afterwards is either
exactly the same record (same `openedAt`) or CLOSED — `openCircuit` is only
reached under the pre-execution-CLOSED guard, so `openedAt` is never reset
while the circuit is already OPEN; and a step never touches the records of
other job types, so the property holds across any sequence of steps. -/
theorem no_open_to_open_transition
    (cfg : CircuitBreakerConfig) (now : Nat) (s : Store) (job : JobMessage)
    (exec : ExecBehavior) (d : CircuitBreakerData)
    (hrec : s.breakers job.jobType = some d)
    (hst : d.state = CircuitState.OPEN) :
    ((processJob cfg now s job exec).store.breakers job.jobType = some d ∨
     (processJob cfg now s job exec).store.breakers job.jobType
       = some { state := CircuitState.CLOSED, openedAt := none }) ∧
    ∀ jt, jt ≠ job.jobType →
      (processJob cfg now s job exec).store.breakers jt = s.breakers jt := by
  have hstate : getCircuitState s job.jobType = CircuitState.OPEN := by
    simp [getCircuitState, hrec, hst]
  by_cases hcp : canProbe cfg now s job.jobType = true
  · cases exec with
    | exn m =>
      have hred : processJob cfg now s job (.exn m) =
          { store := s, result := internalErrorResult m,
            executorCalls := 1, alerts := [] } := by
        simp [processJob, hstate, hcp]
      rw [hred]
      exact ⟨Or.inl hrec, fun jt _ => rfl⟩
    | ok =>
      have hred : processJob cfg now s job .ok =
          { store := closeCircuit s job.jobType,
            result := { success := true, errorCode := none, message := none },
            executorCalls := 1, alerts := [] } := by
        simp [processJob, hstate, hcp]
      rw [hred]
      constructor
      · right
        simp [closeCircuit]
      · intro jt hjt
        simp [closeCircuit, hjt]
    | fail ec msg =>
      have hred : processJob cfg now s job (.fail ec msg) =
          { store := (incrementFailure s job.jobType (effectiveErrorCode ec)).1,
            result := { success := false, errorCode := ec, message := msg },
            executorCalls := 1, alerts := [] } := by
        simp [processJob, hstate, hcp]
      rw [hred]
      exact ⟨Or.inl hrec, fun jt _ => rfl⟩
  · have hred : processJob cfg now s job exec =
        { store := s, result := circuitOpenResult, executorCalls := 0, alerts := [] } := by
      unfold processJob
      rw [if_pos]
      exact ⟨hstate, by simpa using hcp⟩
    rw [hred]
    exact ⟨Or.inl hrec, fun jt _ => rfl⟩

/-- C9 witness: a circuit opened at time 7, probed successfully at time
60007 — the record either survives unchanged or becomes CLOSED. -/
theorem no_open_to_open_transition_witness :
    ((processJob defaultConfig 60007 (openCircuit 7 emptyStore "email")
        (mkJob "email") .ok).store.breakers "email"
        = some { state := CircuitState.OPEN, openedAt := some 7 } ∨
     (processJob defaultConfig 60007 (openCircuit 7 emptyStore "email")
        (mkJob "email") .ok).store.breakers "email"
        = some { state := CircuitState.CLOSED, openedAt := none }) ∧
    (processJob defaultConfig 60007 (openCircuit 7 emptyStore "email")
       (mkJob "email") .ok).store.breakers "sms"
      = (openCircuit 7 emptyStore "email").breakers "sms" :=
  ⟨(no_open_to_open_transition defaultConfig 60007 (openCircuit 7 emptyStore "email")
      (mkJob "email") .ok { state := CircuitState.OPEN, openedAt := some 7 }
      (by decide) (by decide)).1,
   (no_open_to_open_transition defaultConfig 60007 (openCircuit 7 emptyStore "email")
      (mkJob "email") .ok { state := CircuitState.OPEN, openedAt := some 7 }
      (by decide) (by decide)).2 "sms" (by decide)⟩

/-- C4 counterexample.  The claim names the quarantine reason
"circuit opened due to repeated failures", but on a failed non-synthetic
outcome with the circuit OPEN the code produces the reason
"Circuit breaker opened due to repeated failures" (with the word
"breaker"), so the decision stated by the claim is not the one the code
returns. -/
theorem routing_reason_counterexample :
    (getRoutingDecision (openCircuit 1000 emptyStore "email") (mkJob "email")
       { success := false, errorCode := some "API_TIMEOUT", message := none } 3).route
      = Route.quarantine ∧
    (getRoutingDecision (openCircuit 1000 emptyStore "email") (mkJob "email")
       { success := false, errorCode := some "API_TIMEOUT", message := none } 3).reason
      = "Circuit breaker opened due to repeated failures" ∧
    (getRoutingDecision (openCircuit 1000 emptyStore "email") (mkJob "email")
       { success := false, errorCode := some "API_TIMEOUT", message := none } 3).reason
      ≠ "circuit opened due to repeated failures" := by
  refine ⟨by decide, by decide, by decide⟩

/-- C4 (amended).  For a failed outcome whose error code is not
`CIRCUIT_OPEN`, the routing decision re-reads the circuit state: when it is
OPEN the job is quarantined with reason "Circuit breaker opened due to
repeated failures", and this takes precedence over the retry budget (the
attempt count is not consulted); when it is CLOSED and the attempt count has
reached `maxRetries` the job is quarantined with reason
"Max retries exceeded"; otherwise the job is retried with a reason carrying
the next attempt number. -/
theorem failure_routing_decision_rules
    (s : Store) (job : JobMessage) (result : JobExecutionResult) (maxRetries : Nat)
    (hfail : result.success = false)
    (hnco : result.errorCode ≠ some "CIRCUIT_OPEN") :
    (getCircuitState s job.jobType = CircuitState.OPEN →
      getRoutingDecision s job result maxRetries
        = { route := Route.quarantine,
            reason := "Circuit breaker opened due to repeated failures" }) ∧
    (getCircuitState s job.jobType = CircuitState.CLOSED →
      maxRetries ≤ job.metadata.attemptCount →
      getRoutingDecision s job result maxRetries
        = { route := Route.quarantine, reason := "Max retries exceeded" }) ∧
    (getCircuitState s job.jobType = CircuitState.CLOSED →
      job.metadata.attemptCount < maxRetries →
      getRoutingDecision s job result maxRetries
        = { route := Route.retry,
            reason := "Retry attempt " ++ toString (job.metadata.attemptCount + 1)
              ++ "/" ++ toString maxRetries }) := by
  refine ⟨?_, ?_, ?_⟩
  · intro h
    simp [getRoutingDecision, hfail, hnco, h]
  · intro h hle
    simp [getRoutingDecision, hfail, hnco, h, hle]
  · intro h hlt
    have hnle : ¬ maxRetries ≤ job.metadata.attemptCount := by omega
    simp [getRoutingDecision, hfail, hnco, h, hnle]

/-- C4 witness: all three rules at concrete inputs — an OPEN circuit
quarantines a first-attempt job (precedence over the retry budget), an
exhausted budget quarantines, and otherwise the job retries as attempt
1/3. -/
theorem failure_routing_decision_rules_witness :
    getRoutingDecision (openCircuit 1000 emptyStore "email") (mkJob "email")
      { success := false, errorCode := some "API_TIMEOUT", message := none } 3
      = { route := Route.quarantine,
          reason := "Circuit breaker opened due to repeated failures" } ∧
    getRoutingDecision emptyStore
      { jobType := "email", payload := "",
        metadata := { submittedAt := "", attemptCount := 3 } }
      { success := false, errorCode := some "API_TIMEOUT", message := none } 3
      = { route := Route.quarantine, reason := "Max retries exceeded" } ∧
    getRoutingDecision emptyStore (mkJob "email")
      { success := false, errorCode := some "API_TIMEOUT", message := none } 3
      = { route := Route.retry, reason := "Retry attempt 1/3" } :=
  ⟨(failure_routing_decision_rules (openCircuit 1000 emptyStore "email") (mkJob "email")
      { success := false, errorCode := some "API_TIMEOUT", message := none } 3
      (by decide) (by decide)).1 (by decide),
   (failure_routing_decision_rules emptyStore
      { jobType := "email", payload := "",
        metadata := { submittedAt := "", attemptCount := 3 } }
      { success := false, errorCode := some "API_TIMEOUT", message := none } 3
      (by decide) (by decide)).2.1 (by decide) (by decide),
   (failure_routing_decision_rules emptyStore (mkJob "email")
      { success := false, errorCode := some "API_TIMEOUT", message := none } 3
      (by decide) (by decide)).2.2 (by decide) (by decide)⟩

/-- C7 counterexample.  The claim states that an executor exception is fed
into the failure-handling step (`recordFailure` invoked for
`(jobType, INTERNAL_ERROR)`, threshold checked).  In the code the catch
block returns the `INTERNAL_ERROR` outcome directly, skipping that block:
after an executor throw the `INTERNAL_ERROR` counter is still 0 (and so is
every other counter). -/
theorem executor_exception_skips_recording_counterexample :
    (processJob defaultConfig 0 emptyStore (mkJob "email") (.exn "boom")).result.errorCode
      = some "INTERNAL_ERROR" ∧
    (processJob defaultConfig 0 emptyStore (mkJob "email")
       (.exn "boom")).store.failures "email" "INTERNAL_ERROR" = 0 ∧
    (processJob defaultConfig 0 emptyStore (mkJob "email")
       (.exn "boom")).store.failures "email" "UNKNOWN_ERROR" = 0 := by
  refine ⟨by decide, by decide, by decide⟩

/-- C7 (amended).  An exception thrown by the executor is caught and
converted into the `INTERNAL_ERROR` failure outcome, which flows into the
same (total) routing decision as any other non-synthetic failure — but it
bypasses the failure-recording step: the store is untouched (no counter
increment, no threshold check, no circuit open) and no alert fires. -/
theorem executor_exception_internal_error
    (cfg : CircuitBreakerConfig) (now : Nat) (s : Store) (job : JobMessage)
    (m : String)
    (hclosed : getCircuitState s job.jobType = CircuitState.CLOSED) :
    (processJob cfg now s job (.exn m)).result = internalErrorResult m ∧
    (processJob cfg now s job (.exn m)).store = s ∧
    (processJob cfg now s job (.exn m)).executorCalls = 1 ∧
    (processJob cfg now s job (.exn m)).alerts = [] ∧
    ∀ maxRetries : Nat,
      getRoutingDecision s job (processJob cfg now s job (.exn m)).result maxRetries
        = getRoutingDecision s job
            { success := false, errorCode := some "INTERNAL_ERROR", message := some m }
            maxRetries := by
  have hred : processJob cfg now s job (.exn m) =
      { store := s, result := internalErrorResult m,
        executorCalls := 1, alerts := [] } := by
    simp [processJob, hclosed]
  rw [hred]
  exact ⟨rfl, rfl, rfl, rfl, fun _ => rfl⟩

/-- C7 witness: executor throw on the empty store with a CLOSED circuit. -/
theorem executor_exception_internal_error_witness :
    (processJob defaultConfig 0 emptyStore (mkJob "email") (.exn "db down")).result
      = internalErrorResult "db down" ∧
    (processJob defaultConfig 0 emptyStore (mkJob "email") (.exn "db down")).store
      = emptyStore ∧
    getRoutingDecision emptyStore (mkJob "email")
      (processJob defaultConfig 0 emptyStore (mkJob "email") (.exn "db down")).result 3
      = getRoutingDecision emptyStore (mkJob "email")
          { success := false, errorCode := some "INTERNAL_ERROR",
            message := some "db down" } 3 :=
  ⟨(executor_exception_internal_error defaultConfig 0 emptyStore (mkJob "email")
      "db down" (by decide)).1,
   (executor_exception_internal_error defaultConfig 0 emptyStore (mkJob "email")
      "db down" (by decide)).2.1,
   (executor_exception_internal_error defaultConfig 0 emptyStore (mkJob "email")
      "db down" (by decide)).2.2.2.2 3⟩

/-- Store with no circuit record but a surviving failure counter for
`(email, API_TIMEOUT)`. -/
def missingRecordStore : Store :=
  { breakers := fun _ => none,
    failures := fun jt ec => if jt = "email" ∧ ec = "API_TIMEOUT" then 3 else 0 }

/-- C10 counterexample.  The claim states reset and `closeCircuit` agree on
every starting state including an absent record.  With no record for
`email` but a surviving counter, `resetBreaker` throws `NotFoundException`
and leaves the counter at 3, while `closeCircuit` would delete it. -/
theorem resetBreaker_missing_record_counterexample :
    resetBreaker missingRecordStore "email" = Except.error () ∧
    missingRecordStore.failures "email" "API_TIMEOUT" = 3 ∧
    (closeCircuit missingRecordStore "email").failures "email" "API_TIMEOUT" = 0 :=
  ⟨rfl, by decide, by decide⟩

/-- C10 (amended).  Whenever a circuit record exists for the job type, the
control plane's reset is exactly the engine's `closeCircuit` (same record
write, same counter deletion); when no record exists, reset fails with
`NotFoundException` and leaves the store untouched, while `closeCircuit`
would write a CLOSED record and delete the counters. -/
theorem resetBreaker_refines_closeCircuit (s : Store) (jt : String) :
    ((s.breakers jt).isSome = true →
      resetBreaker s jt = Except.ok (closeCircuit s jt)) ∧
    (s.breakers jt = none → resetBreaker s jt = Except.error ()) := by
  constructor
  · intro h
    unfold resetBreaker closeCircuit
    cases hb : s.breakers jt with
    | none =>
      rw [hb] at h
      simp at h
    | some d => rfl
  · intro h
    unfold resetBreaker
    rw [h]

/-- C10 witness: reset succeeds (and equals `closeCircuit`) on a store whose
`email` record exists, and errors on the empty store. -/
theorem resetBreaker_refines_closeCircuit_witness :
    resetBreaker (openCircuit 7 emptyStore "email") "email"
      = Except.ok (closeCircuit (openCircuit 7 emptyStore "email") "email") ∧
    resetBreaker emptyStore "email" = Except.error () :=
  ⟨(resetBreaker_refines_closeCircuit (openCircuit 7 emptyStore "email") "email").1
     (by decide),
   (resetBreaker_refines_closeCircuit emptyStore "email").2 rfl⟩

/-! ## Fallible-store model (claim C6)

`processJob` wraps its whole body — the circuit-breaker store calls and the
executor alike — in one try/catch whose catch returns an `INTERNAL_ERROR`
outcome.  To reason about store outages, each circuit-breaker service call
inside `processJob` consumes one index of an availability schedule
`avail : Nat → Bool` (index 0 = `getCircuitState`, then `canProbe` when the
state is OPEN, then `closeCircuit` or `incrementFailure` /
`shouldOpenCircuit` / `openCircuit` in source order): a call whose index is
unavailable throws, the catch converts it to the `INTERNAL_ERROR` outcome,
and any store effects already performed persist.  The controller
(`WorkerController.handleJob`) then asks `getRoutingDecision` — whose own
circuit-state re-read may also throw — and acks on every decided route,
while an exception escaping to the controller is caught there and the
message is nacked instead of acked. -/

/-- Stand-in for the message of the error thrown on an unavailable store. -/
def storeDownMessage : String := "store unavailable"

/-- The part of fallible `processJob` after the open-circuit gate: executor
invocation and the success/failure handling, with store calls consuming
availability indices from `idx` on. -/
def processJobAfterGate (cfg : CircuitBreakerConfig) (now : Nat) (s : Store)
    (job : JobMessage) (exec : ExecBehavior) (circuitState : CircuitState)
    (avail : Nat → Bool) (idx : Nat) : ProcessOutcome :=
  match exec with
  | .exn m =>
    { store := s, result := internalErrorResult m, executorCalls := 1, alerts := [] }
  | .ok =>
    if circuitState = CircuitState.OPEN then
      if avail idx then
        { store := closeCircuit s job.jobType,
          result := { success := true, errorCode := none, message := none },
          executorCalls := 1, alerts := [] }
      else
        { store := s, result := internalErrorResult storeDownMessage,
          executorCalls := 1, alerts := [] }
    else
      { store := s,
        result := { success := true, errorCode := none, message := none },
        executorCalls := 1, alerts := [] }
  | .fail ec msg =>
    if avail idx then
      let incr := incrementFailure s job.jobType (effectiveErrorCode ec)
      if avail (idx + 1) then
        if shouldOpenCircuit cfg incr.1 job.jobType (effectiveErrorCode ec) = true
            ∧ circuitState = CircuitState.CLOSED then
          if avail (idx + 2) then
            { store := openCircuit now incr.1 job.jobType,
              result := { success := false, errorCode := ec, message := msg },
              executorCalls := 1,
              alerts := [(job.jobType, effectiveErrorCode ec, incr.2)] }
          else
            { store := incr.1, result := internalErrorResult storeDownMessage,
              executorCalls := 1, alerts := [] }
        else
          { store := incr.1,
            result := { success := false, errorCode := ec, message := msg },
            executorCalls := 1, alerts := [] }
      else
        { store := incr.1, result := internalErrorResult storeDownMessage,
          executorCalls := 1, alerts := [] }
    else
      { store := s, result := internalErrorResult storeDownMessage,
        executorCalls := 1, alerts := [] }

/-- Model of `WorkerService.processJob` over a store with an availability schedule:
identical to `processJob` when every call succeeds, and returning the catch
block's `INTERNAL_ERROR` outcome from the first unavailable call on. -/
def processJobF (cfg : CircuitBreakerConfig) (now : Nat) (s : Store)
    (job : JobMessage) (exec : ExecBehavior) (avail : Nat → Bool) : ProcessOutcome :=
  if avail 0 then
    let circuitState := getCircuitState s job.jobType
    if circuitState = CircuitState.OPEN then
      if avail 1 then
        if ¬ canProbe cfg now s job.jobType then
          { store := s, result := circuitOpenResult, executorCalls := 0, alerts := [] }
        else processJobAfterGate cfg now s job exec circuitState avail 2
      else
        { store := s, result := internalErrorResult storeDownMessage,
          executorCalls := 0, alerts := [] }
    else processJobAfterGate cfg now s job exec circuitState avail 1
  else
    { store := s, result := internalErrorResult storeDownMessage,
      executorCalls := 0, alerts := [] }

/-- Model of `WorkerService.getRoutingDecision` with its circuit-state re-read
fallible: the read happens only past the success and `CIRCUIT_OPEN`
short-circuits, and when it throws the exception escapes the method. -/
def getRoutingDecisionF (s : Store) (job : JobMessage)
    (result : JobExecutionResult) (maxRetries : Nat) (avail : Nat → Bool) :
    Except Unit RoutingDecision :=
  if result.success = true then
    .ok { route := .ack, reason := "Job completed successfully" }
  else if result.errorCode = some "CIRCUIT_OPEN" then
    .ok { route := .quarantine, reason := "Circuit breaker is open" }
  else if avail 0 then
    .ok (getRoutingDecision s job result maxRetries)
  else .error ()

/-- Fate of one queue delivery in `WorkerController.handleJob`: the
controller acks the original message on every decided route (ack, retry and
quarantine alike), and nacks it when an exception escapes to its catch. -/
inductive Delivery where
  | acked (decision : RoutingDecision)
  | nacked
deriving DecidableEq, Repr

/-- Model of `WorkerController.handleJob` over the fallible store: process, decide,
then ack with the decision — or nack when the decision computation threw. -/
def handleJobF (cfg : CircuitBreakerConfig) (now : Nat) (s : Store)
    (job : JobMessage) (exec : ExecBehavior) (maxRetries : Nat)
    (availP availR : Nat → Bool) : Store × Delivery :=
  let o := processJobF cfg now s job exec availP
  match getRoutingDecisionF o.store job o.result maxRetries availR with
  | .ok d => (o.store, .acked d)
  | .error _ => (o.store, .nacked)

/-- C6 counterexample.  The claim states a Failure-Store outage during a
job's processing is never converted into a job-level routing decision and
the delivery is left unacked.  With the store down exactly during
`incrementFailure` (schedule false at index 1, the store having recovered by
decision time), the catch inside `processJob` converts the outage into an
`INTERNAL_ERROR` outcome, `getRoutingDecision` turns it into a retry
decision, and the controller acks the delivery. -/
theorem store_failure_routed_counterexample :
    (processJobF defaultConfig 0 emptyStore (mkJob "email")
       (.fail (some "API_TIMEOUT") none) (fun n => n != 1)).result.errorCode
      = some "INTERNAL_ERROR" ∧
    (handleJobF defaultConfig 0 emptyStore (mkJob "email")
       (.fail (some "API_TIMEOUT") none) 3 (fun n => n != 1) (fun _ => true)).2
      = Delivery.acked { route := Route.retry, reason := "Retry attempt 1/3" } := by
  refine ⟨by decide, by decide⟩

/-- C6 (amended).  A store outage inside `processJob`'s try block (here: at
the `incrementFailure` call) is caught and converted into an
`INTERNAL_ERROR` outcome that does receive a job-level routing decision,
after which the delivery is acked; only an exception thrown outside that
try — the circuit re-read inside `getRoutingDecision` — escapes to the
consumer loop, which nacks the delivery without acking, leaving redelivery
to the broker. -/
theorem store_failure_handling
    (cfg : CircuitBreakerConfig) (now : Nat) (s : Store) (job : JobMessage)
    (ec : Option String) (msg : Option String) (maxRetries : Nat)
    (hclosed : getCircuitState s job.jobType = CircuitState.CLOSED)
    (hnco : ec ≠ some "CIRCUIT_OPEN") :
    (processJobF cfg now s job (.fail ec msg) (fun n => n != 1)).result
      = internalErrorResult storeDownMessage ∧
    (processJobF cfg now s job (.fail ec msg) (fun n => n != 1)).store = s ∧
    (handleJobF cfg now s job (.fail ec msg) maxRetries (fun n => n != 1)
       (fun _ => true)).2
      = Delivery.acked
          (getRoutingDecision s job (internalErrorResult storeDownMessage) maxRetries) ∧
    (handleJobF cfg now s job (.fail ec msg) maxRetries (fun _ => true)
       (fun _ => false)).2
      = Delivery.nacked := by
  have hP : processJobF cfg now s job (.fail ec msg) (fun n => n != 1) =
      { store := s, result := internalErrorResult storeDownMessage,
        executorCalls := 1, alerts := [] } := by
    simp [processJobF, processJobAfterGate, hclosed]
  have hresT : (processJobF cfg now s job (.fail ec msg) (fun _ => true)).result
      = { success := false, errorCode := ec, message := msg } := by
    simp [processJobF, processJobAfterGate, hclosed]
    try split <;> rfl
  refine ⟨by rw [hP], by rw [hP], ?_, ?_⟩
  · have hdec : getRoutingDecisionF s job (internalErrorResult storeDownMessage)
        maxRetries (fun _ => true)
        = .ok (getRoutingDecision s job (internalErrorResult storeDownMessage)
            maxRetries) := by
      simp [getRoutingDecisionF, internalErrorResult]
    simp [handleJobF, hP, hdec]
  · have hdec : getRoutingDecisionF
        (processJobF cfg now s job (.fail ec msg) (fun _ => true)).store job
        (processJobF cfg now s job (.fail ec msg) (fun _ => true)).result
        maxRetries (fun _ => false) = .error () := by
      rw [hresT]
      simp [getRoutingDecisionF, hnco]
    simp [handleJobF, hdec]

/-- C6 witness: the empty store, a first-attempt `email` job failing with
`API_TIMEOUT`, retry budget 3. -/
theorem store_failure_handling_witness :
    (processJobF defaultConfig 0 emptyStore (mkJob "email")
       (.fail (some "API_TIMEOUT") none) (fun n => n != 1)).result
      = internalErrorResult storeDownMessage ∧
    (handleJobF defaultConfig 0 emptyStore (mkJob "email")
       (.fail (some "API_TIMEOUT") none) 3 (fun n => n != 1) (fun _ => true)).2
      = Delivery.acked
          (getRoutingDecision emptyStore (mkJob "email")
            (internalErrorResult storeDownMessage) 3) ∧
    (handleJobF defaultConfig 0 emptyStore (mkJob "email")
       (.fail (some "API_TIMEOUT") none) 3 (fun _ => true) (fun _ => false)).2
      = Delivery.nacked :=
  ⟨(store_failure_handling defaultConfig 0 emptyStore (mkJob "email")
      (some "API_TIMEOUT") none 3 (by decide) (by decide)).1,
   (store_failure_handling defaultConfig 0 emptyStore (mkJob "email")
      (some "API_TIMEOUT") none 3 (by decide) (by decide)).2.2.1,
   (store_failure_handling defaultConfig 0 emptyStore (mkJob "email")
      (some "API_TIMEOUT") none 3 (by decide) (by decide)).2.2.2⟩

end DevopsCircuit
